import Mathlib

/-!
Shallow embedding of the amber repository's declarative table-spec engine
(`src/amberapi/datacomposer.py`, `amberapi_v1/datacomposer.py`), its
derivation functions (`amberapi_v1/amber_data.py`) and the sink-adapter
per-cycle control flow (`src/amberapi/amber.py`), together with theorems
settling the frozen claims about them.

Modelling conventions:
* Python strings are Lean `String`; Python `Optional[T]` is `Option T`;
  Python truthiness of an optional string (`if x:`) is `pyTruthy`.
* A pandas cell value is `Value` (null / text / integer / numeric pair /
  min-max mapping).  Timestamps are modelled as whole epoch seconds
  (`Value.int`); a pandas timedelta between two such timestamps is their
  integer difference in seconds, and the pandas `.dt.seconds` component
  accessor is `dtSeconds` (Python floor-mod by 86400, matching the pandas
  days/seconds/microseconds decomposition).
* A pandas DataFrame is `DataFrame`: an ordered column list plus a list of
  rows, each row an association list from column name to `Value`.
* Code that can raise returns `Except String α`; the error string names the
  Python exception.  Logging is not modelled (it does not affect data flow).
* Python `str.format` templates are pre-parsed into literal/key parts
  (`TplPart`), since only template semantics (substitution and KeyError on
  an unknown key) matter to the claims.
-/

namespace Amber

/-- A pandas cell value.  `rmap` models the small min/max mapping carried by
the raw `wholesaleKWHPriceRange` column (absent entries model both missing
keys and values `float` cannot parse); `pair` models the coerced 2-element
numeric pair produced by `map_to_array`. -/
inductive Value where
  | null
  | str (s : String)
  | int (n : Int)
  | pair (a b : Int)
  | rmap (mn mx : Option Int)
deriving DecidableEq, Repr

/-- One DataFrame row: an association list from column name to value. -/
abbrev Row := List (String × Value)

/-- A pandas DataFrame: ordered column labels and the row list. -/
structure DataFrame where
  cols : List String
  rows : List Row
deriving DecidableEq, Repr

/-- Column access inside one row; a name the row does not carry yields
`Value.null` (the claims only ever access columns they first require to be
present). -/
def rowLookup (r : Row) (c : String) : Value :=
  match r.find? (fun kv => kv.1 == c) with
  | some kv => kv.2
  | none => Value.null

/-- Python truthiness of an optional string: `None` and `""` are falsy. -/
def pyTruthy : Option String → Bool
  | some s => !(s == "")
  | none => false

/-- Python `str(x)` for an optional string: `None` renders as `"None"`. -/
def pyStrOpt : Option String → String
  | some s => s
  | none => "None"

/-- Python whitespace test used by `str.strip()`. -/
def isPySpace (c : Char) : Bool :=
  c == ' ' || c == '\t' || c == '\n' || c == '\x0d' || c == '\x0b' || c == '\x0c'

/-- Python `str.strip()`: remove leading and trailing whitespace. -/
def pystrip (s : String) : String :=
  ⟨((s.data.dropWhile isPySpace).reverse.dropWhile isPySpace).reverse⟩

/-- Python `sep.join(xs)`. -/
def joinWith (sep : String) : List String → String
  | [] => ""
  | [s] => s
  | s :: rest => s ++ sep ++ joinWith sep rest

/-- Claim-side helper: concatenate `sep ++ y` for every `y` (what `sep.join`
appends after its first element). -/
def prefixEach (sep : String) : List String → String
  | [] => ""
  | y :: ys => sep ++ y ++ prefixEach sep ys

/-- Sequencing of a fallible map over a list, left to right, stopping at the
first error — the semantics of a Python `for` loop whose body may raise. -/
def mapMExcept {α β : Type} (f : α → Except String β) : List α → Except String (List β)
  | [] => Except.ok []
  | a :: as =>
    match f a with
    | Except.ok b =>
      match mapMExcept f as with
      | Except.ok bs => Except.ok (b :: bs)
      | Except.error e => Except.error e
    | Except.error e => Except.error e

/-- `datacomposer.FieldMap` (both versions are identical): per-field metadata
for SQL generation.  The `convert` field (an identity-by-default per-value
transform) is omitted: it is never invoked anywhere in the repository and no
claim mentions it.  `data_type` is modelled as the string the f-string
rendering interpolates (its source default is `"VARCHAR"`). -/
structure FieldMap where
  in_name : String
  data_type : String := "VARCHAR"
  column_name : Option String := none
  primary_key : Bool := false
  keep : Bool := true
  default : Option String := none
  comment : Option String := none
deriving DecidableEq, Repr

/-- The expression `f.column_name if f.column_name else f.in_name` shared by
`get_column_names` and `compose_create`: Python truthiness makes both `None`
and the empty string fall back to `in_name`. -/
def effectiveName (f : FieldMap) : String :=
  match f.column_name with
  | some c => if c == "" then f.in_name else c
  | none => f.in_name

/-- `datacomposer.get_in_names`: source names of the keep-true fields, in
declaration order. -/
def get_in_names (fm : List FieldMap) : List String :=
  (fm.filter (fun f => f.keep)).map (fun f => f.in_name)

/-- `datacomposer.get_column_names`: effective column names of the keep-true
fields, in declaration order. -/
def get_column_names (fm : List FieldMap) : List String :=
  (fm.filter (fun f => f.keep)).map effectiveName

/-- One part of a pre-parsed `str.format` template: literal text or a
substitution field `{k}`. -/
inductive TplPart where
  | lit (s : String)
  | key (k : String)
deriving DecidableEq, Repr

/-- A pre-parsed `str.format` template string. -/
abbrev Template := List TplPart

/-- Value of one template part under
`format(table_name=table_name, primary_key=primary_key)`: an unknown
substitution key raises `KeyError`; `{primary_key}` renders the Python value,
so an absent primary key renders as the literal text `None`. -/
def partValue (t : String) (pk : Option String) : TplPart → Except String String
  | TplPart.lit s => Except.ok s
  | TplPart.key k =>
    if k == "table_name" then Except.ok t
    else if k == "primary_key" then Except.ok (pyStrOpt pk)
    else Except.error ("KeyError: " ++ k)

/-- `xsql.format(table_name=..., primary_key=...)` for one template. -/
def formatTemplate (tpl : Template) (t : String) (pk : Option String) : Except String String :=
  match mapMExcept (partValue t pk) tpl with
  | Except.ok parts => Except.ok (String.join parts)
  | Except.error e => Except.error e

/-- The `for xsql in extra_sql` loop of `compose_create`: format each
template in order; the first failure raises (the source logs and re-raises). -/
def formatTemplates (ts : List Template) (t : String) (pk : Option String) :
    Except String (List String) :=
  mapMExcept (fun tpl => formatTemplate tpl t pk) ts

/-- One template part whose substitution key (if any) is known to the
`format(table_name=..., primary_key=...)` call. -/
def partValid : TplPart → Bool
  | TplPart.lit _ => true
  | TplPart.key k => k == "table_name" || k == "primary_key"

/-- A template whose substitution keys are all known to the `format` call. -/
def templateValid (tpl : Template) : Bool :=
  tpl.all partValid

/-- The per-field DDL line of `compose_create`:
`f"{column-or-in-name} {f.data_type} {f.default if f.default is not None else ''}".strip()`. -/
def renderField (f : FieldMap) : String :=
  pystrip (effectiveName f ++ " " ++ f.data_type ++ " " ++
    (match f.default with
     | some d => d
     | none => ""))

/-- The clause list `compose_create` accumulates before the final newline
join: the create line carrying the keep-true field descriptions, the
primary-key clause when `if primary_key:` is truthy, and the closing
parenthesis. -/
def createClauses (table_name : String) (fields : List FieldMap)
    (primary_key : Option String) : List String :=
  let fdesc := joinWith ",\n" ((fields.filter (fun f => f.keep)).map renderField)
  let clauses := ["CREATE TABLE IF NOT EXISTS " ++ table_name ++ " (\n" ++ fdesc]
  let clauses :=
    if pyTruthy primary_key then
      clauses ++ [", PRIMARY KEY(" ++ primary_key.getD "" ++ ")"]
    else clauses
  clauses ++ [");"]

/-- `datacomposer.compose_create`: build the clause list, append the
formatted extra statements when `if extra_sql:` is truthy, and join all
clauses with newlines.  A raising `format` call propagates as an error. -/
def compose_create (table_name : String) (fields : List FieldMap)
    (primary_key : Option String := none) (extra_sql : Option (List Template) := none) :
    Except String String :=
  let clauses := createClauses table_name fields primary_key
  match extra_sql with
  | some ts =>
    if ts.isEmpty then Except.ok (joinWith "\n" clauses)
    else
      match formatTemplates ts table_name primary_key with
      | Except.ok rendered => Except.ok (joinWith "\n" (clauses ++ rendered))
      | Except.error e => Except.error e
  | none => Except.ok (joinWith "\n" clauses)

/-- `datacomposer.compose_insert`: parameterized insert with the given column
names and positional placeholders; `if xclause:` is a truthiness test, so an
empty extra clause leaves the statement unchanged. -/
def compose_insert (field_names : List String) (table_name : String)
    (xclause : Option String := none) : String :=
  let fields := joinWith ", " field_names
  let placeholders :=
    joinWith ", " ((List.range field_names.length).map (fun i => "$" ++ toString (i + 1)))
  let sql := "INSERT INTO " ++ table_name ++ " (" ++ fields ++ ") values (" ++ placeholders ++ ")"
  match xclause with
  | some x => if x = "" then sql else sql ++ "\n" ++ x
  | none => sql

/-- `datacomposer.TableSpec`: a plain dataclass — construction is the record
constructor and performs no validation.  `calculate` receives the spec in the
source; every derivation consults only the spec's column names, so the
embedding passes `get_column_names field_map` to it. -/
structure TableSpec where
  field_map : List FieldMap
  table_name : String
  primary_key : Option String := none
  calculate : Option (List String → DataFrame → Except String DataFrame) := none
  extra_sql : Option (List Template) := none

/-- `TableSpec.get_in_names`. -/
def TableSpec.get_in_names (ts : TableSpec) : List String :=
  Amber.get_in_names ts.field_map

/-- `TableSpec.get_column_names`. -/
def TableSpec.get_column_names (ts : TableSpec) : List String :=
  Amber.get_column_names ts.field_map

/-- `TableSpec.do_calculate`: call the derivation inside `try/except`; a
raising derivation is logged and the method falls through, returning Python
`None` (`Option.none` here).  A spec without a derivation also returns `None`. -/
def TableSpec.do_calculate (ts : TableSpec) (df : DataFrame) : Option DataFrame :=
  match ts.calculate with
  | some f =>
    match f (Amber.get_column_names ts.field_map) df with
    | Except.ok r => some r
    | Except.error _ => none
  | none => none

/-- `amber_data.TIME_FIELD`: the time column stamped by the scheduler. -/
def TIME_FIELD : String := "event_time"

/-- `amber_data.actual_30min_fields`. -/
def actual_30min_fields : List FieldMap :=
  [{ in_name := TIME_FIELD, data_type := "TIMESTAMPTZ NOT NULL" },
   { in_name := "semiScheduledGeneration", data_type := "DOUBLE PRECISION" },
   { in_name := "operationalDemand", data_type := "DOUBLE PRECISION" },
   { in_name := "rooftopSolar", data_type := "DOUBLE PRECISION" },
   { in_name := "createdAt", data_type := "TIMESTAMPTZ" },
   { in_name := "wholesaleKWHPrice", data_type := "DOUBLE PRECISION" },
   { in_name := "region" },
   { in_name := "period", data_type := "TIMESTAMPTZ NOT NULL" },
   { in_name := "renewablesPercentage", data_type := "DOUBLE PRECISION" },
   { in_name := "percentileRank", data_type := "DOUBLE PRECISION" },
   { in_name := "postcode" },
   { in_name := "usage_price", data_type := "DOUBLE PRECISION" },
   { in_name := "export_price", data_type := "DOUBLE PRECISION" }]

/-- `amber_data.forecast_rolling_fields`. -/
def forecast_rolling_fields : List FieldMap :=
  [{ in_name := TIME_FIELD, data_type := "TIMESTAMPTZ NOT NULL" },
   { in_name := "semiScheduledGeneration", data_type := "DOUBLE PRECISION" },
   { in_name := "operationalDemand", data_type := "DOUBLE PRECISION" },
   { in_name := "rooftopSolar", data_type := "DOUBLE PRECISION" },
   { in_name := "createdAt", data_type := "TIMESTAMPTZ" },
   { in_name := "wholesaleKWHPrice", data_type := "DOUBLE PRECISION" },
   { in_name := "region" },
   { in_name := "period", data_type := "TIMESTAMPTZ NOT NULL",
     comment := some "30 minute period for forecast" },
   { in_name := "renewablesPercentage", data_type := "DOUBLE PRECISION" },
   { in_name := "periodSource" },
   { in_name := "percentileRank", data_type := "DOUBLE PRECISION" },
   { in_name := "forecastedAt", data_type := "TIMESTAMPTZ",
     comment := some "30 minute period when forecast was made" },
   { in_name := "wholesaleKWHPriceRange", data_type := "DOUBLE PRECISION[]",
     comment := some "[min, max]" },
   { in_name := "postcode" },
   { in_name := "usage_price", data_type := "DOUBLE PRECISION" },
   { in_name := "export_price", data_type := "DOUBLE PRECISION" },
   { in_name := "forecast_lead", data_type := "INTEGER",
     comment := some "lead time in seconds for forecast derived from period and forecastedAt" }]

/-- `amber_data.DEFAULT_HYPERTABLE`, pre-parsed:
the literal text of the source is the two-key format template
`SELECT create_hypertable(...)` over table_name and primary_key. -/
def DEFAULT_HYPERTABLE : Template :=
  [TplPart.lit "SELECT create_hypertable('", TplPart.key "table_name",
   TplPart.lit "', '", TplPart.key "primary_key",
   TplPart.lit "', if_not_exists => TRUE);"]

/-- `amber_data.map_to_array`: coerce the min/max mapping to a 2-element
numeric pair, substituting `(0, 0)` whenever `min` or `max` is missing or not
parseable as a number. -/
def map_to_array (v : Value) : Value :=
  match v with
  | Value.rmap (some a) (some b) => Value.pair a b
  | _ => Value.pair 0 0

/-- The pandas `.dt.seconds` component of a whole-second timedelta: the
days part is discarded, leaving the floor-mod by 86400 (non-negative even
for negative deltas, exactly as pandas decomposes a Timedelta). -/
def dtSeconds (d : Int) : Int := d.emod 86400

/-- Column assignment `of[name] = v` for one row: overwrite the entry when
the column exists, otherwise append it at the end. -/
def setColumn (name : String) (v : Value) (r : Row) : Row :=
  if r.any (fun kv => kv.1 == name) then
    r.map (fun kv => if kv.1 == name then (kv.1, v) else kv)
  else r ++ [(name, v)]

/-- Column-wise `of[name] = of[name].map f` for one row. -/
def mapColumn (name : String) (f : Value → Value) (r : Row) : Row :=
  r.map (fun kv => if kv.1 == name then (kv.1, f kv.2) else kv)

/-- The selection/projection `df.loc[mask, df.columns.intersection(cols)]`:
keep the rows satisfying the mask (computed on the original frame) and
project each to the dataset columns that also appear in the spec's column
list, in the dataset's column order (pandas `Index.intersection` with its
default `sort=False` preserves the calling index's order). -/
def locProject (mask : Row → Bool) (cols : List String) (df : DataFrame) : DataFrame :=
  let keepCols := df.cols.filter (fun c => cols.contains c)
  let sel := df.rows.filter mask
  ⟨keepCols, sel.map (fun r => keepCols.map (fun c => (c, rowLookup r c)))⟩

/-- Selection predicate of `calculate_actual_30min`:
`(df.periodType == "ACTUAL") & (df.periodSource == "30MIN")`. -/
def isActual30 (r : Row) : Bool :=
  rowLookup r "periodType" == Value.str "ACTUAL" &&
  rowLookup r "periodSource" == Value.str "30MIN"

/-- `amber_data.calculate_actual_30min`: select the ACTUAL 30MIN rows,
project to the column intersection, and return `of.iloc[[-1]]` — the last
selected row as a one-row frame; with no selected row, `iloc[[-1]]` raises
`IndexError`. -/
def calculate_actual_30min (cols : List String) (df : DataFrame) :
    Except String DataFrame :=
  let of_ := locProject isActual30 cols df
  match of_.rows.getLast? with
  | some r => Except.ok ⟨of_.cols, [r]⟩
  | none => Except.error "IndexError: positional indexer out-of-bounds"

/-- Selection predicate of the forecast derivations: `df.periodType == "FORECAST"`. -/
def isForecast (r : Row) : Bool :=
  rowLookup r "periodType" == Value.str "FORECAST"

/-- `amber_data.calculate_forecast_rolling`: select the FORECAST rows, project
to the column intersection, then assign
`of["forecast_lead"] = (of.period - of.forecastedAt).dt.seconds` and coerce the
`wholesaleKWHPriceRange` column (when present) through `map_to_array`.
Attribute access on a projected-out column raises (`AttributeError`), and
subtracting non-timestamp cells raises (`TypeError`); pandas NaT propagation
through the subtraction is not modelled (no claim touches a null timestamp
in a forecast row). -/
def calculate_forecast_rolling (cols : List String) (df : DataFrame) :
    Except String DataFrame :=
  let of_ := locProject isForecast cols df
  if of_.cols.contains "period" && of_.cols.contains "forecastedAt" then
    match mapMExcept (fun r =>
      match rowLookup r "period", rowLookup r "forecastedAt" with
      | Value.int p, Value.int t =>
        Except.ok (setColumn "forecast_lead" (Value.int (dtSeconds (p - t))) r)
      | _, _ => Except.error "TypeError: unsupported operand types for -") of_.rows with
    | Except.ok withLead =>
      let colsOut :=
        if of_.cols.contains "forecast_lead" then of_.cols else of_.cols ++ ["forecast_lead"]
      if of_.cols.contains "wholesaleKWHPriceRange" then
        Except.ok ⟨colsOut, withLead.map (mapColumn "wholesaleKWHPriceRange" map_to_array)⟩
      else Except.ok ⟨colsOut, withLead⟩
    | Except.error e => Except.error e
  else Except.error "AttributeError: no such column"

/-- Result shape of the Python `.to_dict()` terminating the single-row
collapse: a Series gives one mapping column to value; a zero-row DataFrame
gives a mapping from each column to an empty inner mapping (all values lost). -/
inductive Collapsed where
  | series (m : Row)
  | frame (cols : List String)
deriving DecidableEq, Repr

/-- The Postgres single-row collapse `df.dropna().squeeze().to_dict()` on a
one-row frame: `DataFrame.dropna()` drops the whole row when any cell is
null; `squeeze` turns a one-row frame into a Series (or a 1x1 frame into a
bare scalar, whose missing `.to_dict` raises) and leaves a zero-row
multi-column frame a frame, so `to_dict` then maps each column to an empty
inner mapping. -/
def pgCollapse (row : Row) : Except String Collapsed :=
  if row.any (fun kv => kv.2 == Value.null) then
    if row.length == 1 then Except.ok (Collapsed.series [])
    else Except.ok (Collapsed.frame (row.map Prod.fst))
  else
    if row.length == 1 then Except.error "AttributeError: scalar has no to_dict"
    else Except.ok (Collapsed.series row)

/-- The MQTT single-row collapse `df.squeeze().dropna().to_dict()` on a
one-row frame: squeeze first gives the row as a Series (a 1x1 frame becomes a
bare scalar, whose missing `.dropna` raises), then `Series.dropna` drops the
null-valued entries. -/
def mqttCollapse (row : Row) : Except String Row :=
  if row.length == 1 then Except.error "AttributeError: scalar has no dropna"
  else Except.ok (row.filter (fun kv => !(kv.2 == Value.null)))

/-- Result of the terminal transport action (or of the statement preparation
feeding it) for one table of a cycle, as seen by the exception handlers of
`PostgresConsumer.write`: success, an asyncpg `UniqueViolationError`, or any
other exception. -/
inductive WriteOutcome where
  | ok
  | uniqueViolation
  | otherError
deriving DecidableEq, Repr

/-- One table's turn in the per-cycle loop of `PostgresConsumer.write`: how
many rows its derivation produced, and what its write attempt does. -/
structure TableJob where
  rowCount : Nat
  outcome : WriteOutcome
deriving DecidableEq, Repr

/-- The per-cycle table loop of `PostgresConsumer.write`, lines 379-429 of
`src/amberapi/amber.py`: an empty derivation is skipped; a multi-row result
takes the `executemany` path whose only handler catches
`UniqueViolationError`, so any other batch error escapes to the loop's outer
handler, which logs and re-raises (aborting the remaining tables); a
single-row result takes the `execute` path whose handlers catch
`UniqueViolationError` and every other exception, so the loop always
continues.  Returns the number of non-empty tables reached when the cycle
completes, and `Except.error` when the re-raise aborts it. -/
def pgWriteCycle : List TableJob → Except Unit Nat
  | [] => Except.ok 0
  | j :: rest =>
    if j.rowCount = 0 then pgWriteCycle rest
    else if 1 < j.rowCount then
      match j.outcome with
      | WriteOutcome.otherError => Except.error ()
      | _ => Except.map (fun n => n + 1) (pgWriteCycle rest)
    else Except.map (fun n => n + 1) (pgWriteCycle rest)

/-- Claim-side rendering of the `compose_create` output, written the way the
spec describes it: a create-if-absent header naming the table, the keep-true
fields in declaration order (each rendered by `renderField`), a primary-key
clause exactly when the primary key is present and non-empty, the closing
parenthesis, and each formatted post-create statement on its own line. -/
def createSpecString (t : String) (fields : List FieldMap) (pk : Option String)
    (rendered : List String) : String :=
  "CREATE TABLE IF NOT EXISTS " ++ t ++ " (\n"
    ++ joinWith ",\n" ((fields.filter (fun f => f.keep)).map renderField)
    ++ (match pk with
        | some p => if p = "" then "" else "\n" ++ ", PRIMARY KEY(" ++ p ++ ")"
        | none => "")
    ++ "\n" ++ ");"
    ++ prefixEach "\n" rendered

/-! Helper lemmas about the string-building primitives. -/

theorem joinWith_cons (sep y : String) (ys : List String) :
    joinWith sep (y :: ys) = y ++ prefixEach sep ys := by
  induction ys generalizing y with
  | nil => simp [joinWith, prefixEach, String.append_empty]
  | cons z zs ih => simp [joinWith, prefixEach, ih, String.append_assoc]

theorem joinWith_append_singleton (sep j x : String) (xs : List String) :
    joinWith sep ((x :: xs) ++ [j]) = joinWith sep (x :: xs) ++ sep ++ j := by
  induction xs generalizing x with
  | nil => rfl
  | cons z zs ih =>
    show x ++ sep ++ joinWith sep ((z :: zs) ++ [j])
      = (x ++ sep ++ joinWith sep (z :: zs)) ++ sep ++ j
    rw [ih z]
    simp [String.append_assoc]

theorem createClauses_join (t : String) (fields : List FieldMap) (pk : Option String)
    (rs : List String) :
    joinWith "\n" (createClauses t fields pk ++ rs) = createSpecString t fields pk rs := by
  cases pk with
  | none =>
    simp [-String.reduceAppend, createClauses, pyTruthy, createSpecString, joinWith_cons,
      prefixEach, String.append_assoc, String.empty_append, String.append_empty]
  | some p =>
    by_cases hp : p = ""
    · subst hp
      simp [-String.reduceAppend, createClauses, pyTruthy, createSpecString, joinWith_cons,
        prefixEach, String.append_assoc, String.empty_append, String.append_empty]
    · have hp2 : (p == "") = false := beq_eq_false_iff_ne.mpr hp
      simp [-String.reduceAppend, createClauses, pyTruthy, hp, hp2, createSpecString,
        joinWith_cons, prefixEach, String.append_assoc, String.empty_append,
        String.append_empty]

theorem range_shift (n : Nat) (f : Nat → String) :
    (List.range' 1 n).map f = (List.range n).map (fun i => f (i + 1)) := by
  simp [List.range'_eq_map_range, List.map_map, Function.comp_def, Nat.add_comm]

theorem mapMExcept_ok_of_all {α β : Type} (f : α → Except String β) (p : α → Bool)
    (hf : ∀ a, p a = true → ∃ b, f a = Except.ok b) :
    ∀ l : List α, l.all p = true → ∃ bs, mapMExcept f l = Except.ok bs := by
  intro l
  induction l with
  | nil => exact fun _ => ⟨[], rfl⟩
  | cons a as ih =>
    intro h
    rw [List.all_cons, Bool.and_eq_true] at h
    obtain ⟨b, hb⟩ := hf a h.1
    obtain ⟨bs, hbs⟩ := ih h.2
    exact ⟨b :: bs, by simp [mapMExcept, hb, hbs]⟩

theorem mapMExcept_error_of_any {α β : Type} (f : α → Except String β) (p : α → Bool)
    (hf : ∀ a, p a = false → ∃ e, f a = Except.error e) :
    ∀ l : List α, l.all p = false → ∃ e, mapMExcept f l = Except.error e := by
  intro l
  induction l with
  | nil => intro h; simp [List.all_nil] at h
  | cons a as ih =>
    intro h
    cases hpa : p a with
    | false =>
      obtain ⟨e, he⟩ := hf a hpa
      exact ⟨e, by simp [mapMExcept, he]⟩
    | true =>
      have has : as.all p = false := by
        cases hb : as.all p with
        | false => rfl
        | true => rw [List.all_cons, hpa, hb] at h; simp at h
      obtain ⟨e, he⟩ := ih has
      cases hfa : f a with
      | ok b => exact ⟨e, by simp [mapMExcept, hfa, he]⟩
      | error e2 => exact ⟨e2, by simp [mapMExcept, hfa]⟩

theorem partValue_ok_of_valid (t : String) (pk : Option String) (p : TplPart)
    (h : partValid p = true) : ∃ s, partValue t pk p = Except.ok s := by
  cases p with
  | lit s => exact ⟨s, rfl⟩
  | key k =>
    rw [partValid, Bool.or_eq_true] at h
    cases h with
    | inl h1 => exact ⟨t, by simp [partValue, h1]⟩
    | inr h2 =>
      by_cases h1 : (k == "table_name") = true
      · exact ⟨t, by simp [partValue, h1]⟩
      · exact ⟨pyStrOpt pk, by simp [partValue, h1, h2]⟩

theorem partValue_error_of_invalid (t : String) (pk : Option String) (p : TplPart)
    (h : partValid p = false) : ∃ e, partValue t pk p = Except.error e := by
  cases p with
  | lit s => simp [partValid] at h
  | key k =>
    rw [partValid, Bool.or_eq_false_iff] at h
    exact ⟨"KeyError: " ++ k, by simp [partValue, h.1, h.2]⟩

theorem formatTemplate_ok_of_valid (tpl : Template) (t : String) (pk : Option String)
    (h : templateValid tpl = true) : ∃ s, formatTemplate tpl t pk = Except.ok s := by
  obtain ⟨parts, hp⟩ :=
    mapMExcept_ok_of_all (partValue t pk) partValid (partValue_ok_of_valid t pk) tpl h
  exact ⟨String.join parts, by simp [formatTemplate, hp]⟩

theorem formatTemplate_error_of_invalid (tpl : Template) (t : String) (pk : Option String)
    (h : templateValid tpl = false) : ∃ e, formatTemplate tpl t pk = Except.error e := by
  obtain ⟨e, hp⟩ :=
    mapMExcept_error_of_any (partValue t pk) partValid (partValue_error_of_invalid t pk) tpl h
  exact ⟨e, by simp [formatTemplate, hp]⟩

theorem exists_ok_map (e : Except Unit Nat) :
    (∃ n, Except.map (fun n => n + 1) e = Except.ok n) ↔ ∃ n, e = Except.ok n := by
  cases e <;> simp [Except.map]

/-! Theorems settling the claims. -/

/-- C1: `compose_insert` emits an INSERT whose column list is exactly the
given names, joined in the given order, and whose placeholder list is the
positional placeholders numbered 1..N in order — one per column, so the
placeholder count equals the column count.  A given extra clause is appended
after the statement (separated by a newline); appending the empty clause
leaves the statement unchanged, exactly the effect of appending empty text. -/
theorem compose_insert_correct (names : List String) (t x : String) (hx : x ≠ "") :
    compose_insert names t none =
      "INSERT INTO " ++ t ++ " (" ++ joinWith ", " names ++ ") values ("
        ++ joinWith ", " ((List.range' 1 names.length).map (fun k => "$" ++ toString k)) ++ ")"
    ∧ ((List.range' 1 names.length).map (fun k => "$" ++ toString k)).length = names.length
    ∧ compose_insert names t (some x) = compose_insert names t none ++ "\n" ++ x
    ∧ compose_insert names t (some "") = compose_insert names t none := by
  refine ⟨?_, ?_, ?_, ?_⟩
  · rw [range_shift]; rfl
  · simp
  · simp [compose_insert, hx]
  · rfl

/-- C1 witness: a concrete non-empty extra clause is appended verbatim. -/
theorem compose_insert_correct_witness :
    compose_insert ["a", "b"] "amber_actual_5min" (some "ON CONFLICT DO NOTHING") =
      compose_insert ["a", "b"] "amber_actual_5min" none ++ "\n" ++ "ON CONFLICT DO NOTHING" :=
  (compose_insert_correct ["a", "b"] "amber_actual_5min" "ON CONFLICT DO NOTHING"
    (by decide)).2.2.1

/-- C2: evaluating `calculate_forecast_rolling` (real rolling-spec column
names) on a FORECAST row whose target period is 88200 seconds (one day plus
30 minutes) after the forecast-production time.  The code stores
`forecast_lead = 1800` — the pandas `.dt.seconds` component, i.e.
`(P - T) mod 86400` — whereas the lead time `(P - T)` in whole seconds is
88200.  The claim's formula only coincides with the code below one day. -/
theorem forecast_rolling_lead_wraps :
    calculate_forecast_rolling (get_column_names forecast_rolling_fields)
        ⟨["periodType", "period", "forecastedAt"],
         [[("periodType", Value.str "FORECAST"), ("period", Value.int 88200),
           ("forecastedAt", Value.int 0)]]⟩
      = Except.ok ⟨["period", "forecastedAt", "forecast_lead"],
          [[("period", Value.int 88200), ("forecastedAt", Value.int 0),
            ("forecast_lead", Value.int 1800)]]⟩
    ∧ dtSeconds (88200 - 0) = 1800
    ∧ ((88200 : Int) - 0) ≠ 1800 :=
  ⟨rfl, by decide, by decide⟩

/-- C3 counterexample: constructing a `TableSpec` whose keep-true fields
share one source (and hence effective column) name succeeds — the dataclass
constructor validates nothing — and the duplicate names flow silently into
generated DML, the exact malformed SQL the claim says construction prevents. -/
theorem tableSpec_dup_silent :
    ¬ (TableSpec.get_column_names
        ⟨[{ in_name := "price" }, { in_name := "price" }],
         "amber_actual_30min", none, none, none⟩).Nodup
    ∧ compose_insert
        (TableSpec.get_column_names
          ⟨[{ in_name := "price" }, { in_name := "price" }],
           "amber_actual_30min", none, none, none⟩)
        "amber_actual_30min" none
      = "INSERT INTO amber_actual_30min (price, price) values ($1, $2)" := by
  exact ⟨by decide, rfl⟩

/-- C3 amended: `TableSpec` construction performs no validation whatsoever:
the column names of a freshly constructed spec are exactly the effective
names of its keep-true fields in declaration order, and each name occurs as
many times as there are keep-true fields carrying it — duplicates are neither
rejected nor collapsed. -/
theorem tableSpec_construction_unvalidated (fm : List FieldMap) (t : String)
    (pk : Option String) (cf : Option (List String → DataFrame → Except String DataFrame))
    (xs : Option (List Template)) (n : String) :
    TableSpec.get_column_names ⟨fm, t, pk, cf, xs⟩
      = (fm.filter (fun f => f.keep)).map effectiveName
    ∧ (TableSpec.get_column_names ⟨fm, t, pk, cf, xs⟩).count n
      = (fm.filter (fun f => f.keep && (effectiveName f == n))).length := by
  constructor
  · rfl
  · show (get_column_names fm).count n = _
    rw [get_column_names, List.count_eq_countP, List.countP_map, List.countP_filter,
      ← List.countP_eq_length_filter]
    congr 1
    funext f
    simp [Function.comp_def, Bool.and_comm]

/-- C5: the single-row collapse diverges between the two sink adapters on a
row containing a null.  The MQTT path (`squeeze().dropna()`) keeps the
non-null columns as claimed; the Postgres path (`dropna().squeeze()`) drops
the entire row, handing `to_dict` a zero-row frame that maps every column to
an empty inner mapping — not the claimed column-to-value mapping.  With no
null present the Postgres path does produce the claimed mapping. -/
theorem single_row_null_collapse_divergence :
    mqttCollapse [("event_time", Value.int 100), ("rooftopSolar", Value.null)]
      = Except.ok [("event_time", Value.int 100)]
    ∧ pgCollapse [("event_time", Value.int 100), ("rooftopSolar", Value.null)]
      = Except.ok (Collapsed.frame ["event_time", "rooftopSolar"])
    ∧ Collapsed.frame ["event_time", "rooftopSolar"]
        ≠ Collapsed.series [("event_time", Value.int 100)]
    ∧ pgCollapse [("event_time", Value.int 100), ("rooftopSolar", Value.int 5)]
      = Except.ok (Collapsed.series [("event_time", Value.int 100), ("rooftopSolar", Value.int 5)]) :=
  ⟨rfl, rfl, by decide, rfl⟩

/-- C7: a derivation that raises is absorbed at the `TableSpec` boundary —
`do_calculate` returns Python `None` (no rows) instead of propagating the
error, whatever the spec and input are. -/
theorem do_calculate_failsoft (fm : List FieldMap) (t : String) (pk : Option String)
    (xs : Option (List Template)) (f : List String → DataFrame → Except String DataFrame)
    (df : DataFrame) (e : String)
    (h : f (get_column_names fm) df = Except.error e) :
    TableSpec.do_calculate ⟨fm, t, pk, some f, xs⟩ df = none := by
  simp [TableSpec.do_calculate, h]

/-- C7 witness: a concretely raising derivation yields `none`. -/
theorem do_calculate_failsoft_witness :
    TableSpec.do_calculate
      ⟨forecast_rolling_fields, "amber_forecast_rolling", none,
       some (fun _ _ => Except.error "calculation exception"), none⟩ ⟨[], []⟩ = none :=
  do_calculate_failsoft forecast_rolling_fields "amber_forecast_rolling" none none
    (fun _ _ => Except.error "calculation exception") ⟨[], []⟩ "calculation exception" rfl

/-- C8: whenever at least one row matches the ACTUAL 30MIN selection (the
filtered list has a last element `r`), `calculate_actual_30min` returns
exactly one row: the last matching row in input order, projected to the
dataset columns that appear among the spec's kept column names. -/
theorem calculate_actual_30min_last (cols : List String) (df : DataFrame) (r : Row)
    (h : (df.rows.filter isActual30).getLast? = some r) :
    calculate_actual_30min cols df =
      Except.ok ⟨df.cols.filter (fun c => cols.contains c),
        [(df.cols.filter (fun c => cols.contains c)).map (fun c => (c, rowLookup r c))]⟩ := by
  unfold calculate_actual_30min locProject
  simp [List.getLast?_map, h]

/-- C8 witness: two matching rows with the real coarse-actual spec columns;
the result is the projection of the second (last) row. -/
theorem calculate_actual_30min_last_witness :
    calculate_actual_30min (get_column_names actual_30min_fields)
        ⟨["periodType", "periodSource", "period"],
         [[("periodType", Value.str "ACTUAL"), ("periodSource", Value.str "30MIN"),
           ("period", Value.int 1)],
          [("periodType", Value.str "ACTUAL"), ("periodSource", Value.str "30MIN"),
           ("period", Value.int 2)]]⟩
      = Except.ok ⟨["period"], [[("period", Value.int 2)]]⟩ :=
  calculate_actual_30min_last (get_column_names actual_30min_fields)
    ⟨["periodType", "periodSource", "period"],
     [[("periodType", Value.str "ACTUAL"), ("periodSource", Value.str "30MIN"),
       ("period", Value.int 1)],
      [("periodType", Value.str "ACTUAL"), ("periodSource", Value.str "30MIN"),
       ("period", Value.int 2)]]⟩
    [("periodType", Value.str "ACTUAL"), ("periodSource", Value.str "30MIN"),
     ("period", Value.int 2)]
    rfl

/-- C10: `get_column_names` falls back to the source name whenever the
declared column name is falsy — in particular for the empty string, whose
effective name is the source name, never the empty string. -/
theorem get_column_names_falsy_fallback (f : FieldMap) (fs : List FieldMap)
    (hk : f.keep = true) (hc : f.column_name = some "") :
    get_column_names (f :: fs) = f.in_name :: get_column_names fs
    ∧ effectiveName f = f.in_name := by
  refine ⟨?_, ?_⟩
  · simp [get_column_names, hk, effectiveName, hc]
  · simp [effectiveName, hc]

/-- C10 witness: a keep-true field declared with an empty column name
contributes its source name. -/
theorem get_column_names_falsy_fallback_witness :
    get_column_names [{ in_name := "period", column_name := some "" }] =
      "period" :: get_column_names [] :=
  (get_column_names_falsy_fallback { in_name := "period", column_name := some "" } [] rfl rfl).1

/-- C4 counterexample: a cycle whose first table takes the multi-row (batch)
path and whose batch write fails with a non-uniqueness error aborts the whole
cycle — the second table is never reached — while the same failure on the
single-row path is caught and the cycle completes with both tables handled. -/
theorem pgWriteCycle_batch_abort :
    pgWriteCycle [⟨2, WriteOutcome.otherError⟩, ⟨1, WriteOutcome.ok⟩] = Except.error ()
    ∧ pgWriteCycle [⟨1, WriteOutcome.otherError⟩, ⟨1, WriteOutcome.ok⟩] = Except.ok 2 :=
  ⟨rfl, rfl⟩

/-- C4 amended: the per-cycle Postgres loop completes (never aborts the
remaining tables) exactly when no table takes the multi-row path with a
non-uniqueness write failure: single-row failures of any kind and uniqueness
violations on either path are caught per table and the cycle continues, but
any other multi-row batch failure propagates and aborts the rest of the cycle. -/
theorem pgWriteCycle_ok_iff (jobs : List TableJob) :
    (∃ n, pgWriteCycle jobs = Except.ok n) ↔
      ∀ j ∈ jobs, 1 < j.rowCount → j.outcome ≠ WriteOutcome.otherError := by
  induction jobs with
  | nil => simp [pgWriteCycle]
  | cons j rest ih =>
    by_cases h0 : j.rowCount = 0
    · rw [show pgWriteCycle (j :: rest) = pgWriteCycle rest by simp [pgWriteCycle, h0], ih]
      constructor
      · intro h j2 hj2
        rcases List.mem_cons.mp hj2 with hj | hm
        · subst hj; intro hlt; omega
        · exact h j2 hm
      · intro h j2 hm
        exact h j2 (List.mem_cons_of_mem j hm)
    · by_cases h1 : 1 < j.rowCount
      · cases ho : j.outcome with
        | otherError =>
          rw [show pgWriteCycle (j :: rest) = Except.error () by simp [pgWriteCycle, h0, h1, ho]]
          constructor
          · intro h; obtain ⟨n, hn⟩ := h; exact absurd hn (by simp)
          · intro h
            exact absurd ho (h j (List.mem_cons_self j rest) h1)
        | ok =>
          rw [show pgWriteCycle (j :: rest)
                = Except.map (fun n => n + 1) (pgWriteCycle rest) by
              simp [pgWriteCycle, h0, h1, ho]]
          rw [exists_ok_map, ih]
          constructor
          · intro h j2 hj2
            rcases List.mem_cons.mp hj2 with hj | hm
            · subst hj; intro _; rw [ho]; simp
            · exact h j2 hm
          · intro h j2 hm
            exact h j2 (List.mem_cons_of_mem j hm)
        | uniqueViolation =>
          rw [show pgWriteCycle (j :: rest)
                = Except.map (fun n => n + 1) (pgWriteCycle rest) by
              simp [pgWriteCycle, h0, h1, ho]]
          rw [exists_ok_map, ih]
          constructor
          · intro h j2 hj2
            rcases List.mem_cons.mp hj2 with hj | hm
            · subst hj; intro _; rw [ho]; simp
            · exact h j2 hm
          · intro h j2 hm
            exact h j2 (List.mem_cons_of_mem j hm)
      · rw [show pgWriteCycle (j :: rest)
              = Except.map (fun n => n + 1) (pgWriteCycle rest) by
            simp [pgWriteCycle, h0, h1]]
        rw [exists_ok_map, ih]
        constructor
        · intro h j2 hj2
          rcases List.mem_cons.mp hj2 with hj | hm
          · subst hj; intro hlt; omega
          · exact h j2 hm
        · intro h j2 hm
          exact h j2 (List.mem_cons_of_mem j hm)

/-- C4 witness: a single-row failing table does not abort; the cycle reaches
and handles both tables. -/
theorem pgWriteCycle_ok_iff_witness :
    ∃ n, pgWriteCycle [⟨1, WriteOutcome.otherError⟩, ⟨3, WriteOutcome.ok⟩] = Except.ok n :=
  (pgWriteCycle_ok_iff [⟨1, WriteOutcome.otherError⟩, ⟨3, WriteOutcome.ok⟩]).mpr (by decide)

/-- C6: `compose_create` with a post-create statement list (i) succeeds on
any template list whose substitution keys are all known, (ii) whenever the
template formatting succeeds its output is exactly the claim-side rendering
`createSpecString` — the create-if-absent header, exactly the keep-true
fields in declaration order each rendered as column name, type and default
(sharing the source's final whitespace strip), a PRIMARY KEY clause exactly
when the primary key is present and non-empty, the closing parenthesis, then
each substituted post-create statement — and (iii) it fails loudly (returns
an error, emitting no SQL) whenever some template references an unknown
substitution key. -/
theorem compose_create_correct (t : String) (fields : List FieldMap)
    (pk : Option String) (tpls : List Template) :
    (tpls.all templateValid = true → ∃ rs, formatTemplates tpls t pk = Except.ok rs)
    ∧ (∀ rendered, formatTemplates tpls t pk = Except.ok rendered →
        compose_create t fields pk (some tpls)
          = Except.ok (createSpecString t fields pk rendered))
    ∧ (tpls.all templateValid = false →
        ∃ e, compose_create t fields pk (some tpls) = Except.error e) := by
  refine ⟨?_, ?_, ?_⟩
  · intro h
    exact mapMExcept_ok_of_all (fun tpl => formatTemplate tpl t pk) templateValid
      (fun tpl ht => formatTemplate_ok_of_valid tpl t pk ht) tpls h
  · intro rendered h
    cases tpls with
    | nil =>
      have hr : ([] : List String) = rendered := by
        have h2 : Except.ok ([] : List String) = Except.ok rendered := h
        exact Except.ok.inj h2
      subst hr
      show Except.ok (joinWith "\n" (createClauses t fields pk)) = _
      rw [show createClauses t fields pk = createClauses t fields pk ++ []
            from (List.append_nil _).symm,
          createClauses_join]
    | cons a as =>
      show (match formatTemplates (a :: as) t pk with
        | Except.ok rendered =>
            Except.ok (joinWith "\n" (createClauses t fields pk ++ rendered))
        | Except.error e => Except.error e) = _
      rw [h]
      exact congrArg Except.ok (createClauses_join t fields pk rendered)
  · intro h
    obtain ⟨e, he⟩ := mapMExcept_error_of_any (fun tpl => formatTemplate tpl t pk)
      templateValid (fun tpl ht => formatTemplate_error_of_invalid tpl t pk ht) tpls h
    cases tpls with
    | nil => simp at h
    | cons a as =>
      refine ⟨e, ?_⟩
      have he2 : formatTemplates (a :: as) t pk = Except.error e := he
      show (match formatTemplates (a :: as) t pk with
        | Except.ok rendered =>
            Except.ok (joinWith "\n" (createClauses t fields pk ++ rendered))
        | Except.error e => Except.error e) = _
      rw [he2]

/-- C6 witness: the real coarse-actual spec (its fields, its `event_time`
primary key and the hypertable post-create template) composes to the
claim-side rendering with the template's keys substituted. -/
theorem compose_create_correct_witness :
    compose_create "amber_actual_30min" actual_30min_fields (some "event_time")
        (some [DEFAULT_HYPERTABLE])
      = Except.ok (createSpecString "amber_actual_30min" actual_30min_fields
          (some "event_time")
          ["SELECT create_hypertable('amber_actual_30min', 'event_time', if_not_exists => TRUE);"]) :=
  (compose_create_correct "amber_actual_30min" actual_30min_fields (some "event_time")
    [DEFAULT_HYPERTABLE]).2.1
    ["SELECT create_hypertable('amber_actual_30min', 'event_time', if_not_exists => TRUE);"]
    rfl

/-- C9: calling `compose_create` with an absent primary key together with the
hypertable post-create template (which references the primary-key
substitution) does not raise: the `format` call receives the Python value
`None`, so the emitted post-create SQL carries the literal text `None` in
the primary-key position. -/
theorem compose_create_none_pk_substitutes (t : String) (fields : List FieldMap) (s : String)
    (h : compose_create t fields none none = Except.ok s) :
    compose_create t fields none (some [DEFAULT_HYPERTABLE]) =
      Except.ok (s ++ "\n" ++ String.join
        ["SELECT create_hypertable('", t, "', '", "None", "', if_not_exists => TRUE);"]) := by
  have hs2 : joinWith "\n" (createClauses t fields none) = s := by
    have h2 : Except.ok (joinWith "\n" (createClauses t fields none)) = Except.ok s := h
    exact Except.ok.inj h2
  have hf : formatTemplates [DEFAULT_HYPERTABLE] t none =
      Except.ok [String.join
        ["SELECT create_hypertable('", t, "', '", "None", "', if_not_exists => TRUE);"]] := rfl
  have hc : createClauses t fields none =
      ("CREATE TABLE IF NOT EXISTS " ++ t ++ " (\n" ++
        joinWith ",\n" ((fields.filter (fun f => f.keep)).map renderField)) :: [");"] := rfl
  have key : compose_create t fields none (some [DEFAULT_HYPERTABLE])
      = Except.ok (joinWith "\n" (createClauses t fields none ++
          [String.join
            ["SELECT create_hypertable('", t, "', '", "None", "', if_not_exists => TRUE);"]])) := rfl
  rw [key, hc]
  rw [hc] at hs2
  rw [joinWith_append_singleton, hs2]

/-- C9 witness: a concrete spec with no primary key and the hypertable
template composes without error, with `'None'` inside the emitted SQL. -/
theorem compose_create_none_pk_substitutes_witness :
    compose_create "amber_forecast" [] none (some [DEFAULT_HYPERTABLE]) =
      Except.ok ("CREATE TABLE IF NOT EXISTS amber_forecast (\n\n);" ++ "\n" ++ String.join
        ["SELECT create_hypertable('", "amber_forecast", "', '", "None",
         "', if_not_exists => TRUE);"]) :=
  compose_create_none_pk_substitutes "amber_forecast" []
    "CREATE TABLE IF NOT EXISTS amber_forecast (\n\n);" rfl

end Amber
